import Mathlib

/-!
Verification of the returning-clause mutation layer of the gf data-access
engine (packages `gdb`, `pgsql`, `sqlite`), as a shallow embedding.

Go strings are modelled through their character lists so that every string
operation used by the drivers (`strings.Contains`, `strings.TrimSpace`,
`strings.ToUpper`, `strings.HasPrefix`, `strings.SplitN(s, ".", 2)`,
`gstr.Join`) is an executable Lean function that the kernel can evaluate.
-/

namespace Gf

/-- Embeds `strings.HasPrefix` on character lists. -/
def charListPrefix : List Char → List Char → Bool
  | [], _ => true
  | _ :: _, [] => false
  | a :: as, b :: bs => a = b && charListPrefix as bs

/-- Substring search on character lists (`strings.Contains`). -/
def charListContains (hay pat : List Char) : Bool :=
  if charListPrefix pat hay then true
  else
    match hay with
    | [] => false
    | _ :: t => charListContains t pat

/-- Embeds `strings.Contains(s, pat)`. -/
def strContains (s pat : String) : Bool :=
  charListContains s.data pat.data

/-- Embeds `strings.HasPrefix(s, p)`. -/
def strHasPrefix (s p : String) : Bool :=
  charListPrefix p.data s.data

/-- ASCII whitespace test used by `strings.TrimSpace` (the Unicode cases of
the Go function are irrelevant to SQL field names and are not modelled). -/
def isSpaceChar (c : Char) : Bool :=
  c = ' ' || c = '\t' || c = '\n' || c = '\r' || c = '\x0b' || c = '\x0c'

/-- Embeds `strings.TrimSpace`. -/
def strTrim (s : String) : String :=
  ⟨((s.data.dropWhile isSpaceChar).reverse.dropWhile isSpaceChar).reverse⟩

/-- Embeds `strings.ToUpper` (ASCII). -/
def strToUpper (s : String) : String :=
  ⟨s.data.map Char.toUpper⟩

/-- Split a character list at its first `.`; returns the part before the dot
and, when a dot exists, the part after it.  This is the behavior of
`strings.SplitN(s, ".", 2)`. -/
def splitFirstDot : List Char → List Char × Option (List Char)
  | [] => ([], none)
  | c :: t =>
    if c = '.' then ([], some t)
    else
      let r := splitFirstDot t
      (c :: r.1, r.2)

/-- Embeds `gstr.Join(strs, ", ")`. -/
def joinComma : List String → String
  | [] => ""
  | [x] => x
  | x :: xs => x ++ ", " ++ joinComma xs

/-! ## Record / Result data model (`gdb.Record`, `gdb.Result`, `sql.Result`) -/

/-- A scalar cell value (`gvar.Var`).  `Int64()` conversion of a
non-numeric string yields 0, as in gvar. -/
inductive Val where
  | intVal (i : Int)
  | strVal (s : String)
  deriving DecidableEq, Repr

/-- Embeds `gvar.Var.Int64()`. -/
def Val.toInt64 : Val → Int
  | .intVal i => i
  | .strVal _ => 0

/-- Embeds `gdb.Record`: one row, a mapping from column name to value, modelled as
an association list.  A missing key models the nil map entry. -/
def Record := List (String × Val)

instance : DecidableEq Record := inferInstanceAs (DecidableEq (List (String × Val)))

/-- Go map indexing `record[column]`: nil (`none`) when the column is absent. -/
def recLookup (r : Record) (column : String) : Option Val :=
  (r.find? (fun p => p.1 = column)).map (·.2)

/-- The native `sql.Result` produced by the underlying driver for a plain
exec: an affected-row count and a last-insert id. -/
structure NativeResult where
  rowsAffected : Int
  lastInsertId : Int
  deriving DecidableEq, Repr

/-- gerror codes used by this layer (`gcode`). -/
inductive ErrCode where
  | notSupported
  | notFound
  | internalError
  | dbError
  | masterLinkError
  deriving DecidableEq, Repr

/-- A gerror value: a code plus its message. -/
structure GErr where
  code : ErrCode
  msg : String
  deriving DecidableEq, Repr

/-! ## Context model (`context.Context` with the keys this layer uses)

`context.WithValue` builds a chain in which the most recent binding of a key
shadows earlier ones; the chain is modelled as a list with the newest binding
first. -/

/-- The dynamic values this layer stores in a context. -/
inductive CtxVal where
  | strList (fields : List String)
  | tableField (name ty key : String)
  | otherVal
  deriving DecidableEq, Repr

/-- A context: newest key binding first. -/
def Ctx := List (String × CtxVal)

instance : DecidableEq Ctx := inferInstanceAs (DecidableEq (List (String × CtxVal)))

/-- Embeds `ctx.Value(key)`. -/
def ctxValue (ctx : Ctx) (key : String) : Option CtxVal :=
  (ctx.find? (fun p => p.1 = key)).map (·.2)

/-- Embeds `context.WithValue(ctx, key, v)`. -/
def withValue (ctx : Ctx) (key : String) (v : CtxVal) : Ctx :=
  (key, v) :: ctx

/-- Embeds `gdb.ReturningKeyInCtx`. -/
def ReturningKeyInCtx : String := "ReturningFields"

/-- The sqlite driver's private `internalReturningInCtx` key.  Note that it
differs from `gdb.ReturningKeyInCtx`. -/
def internalReturningInCtx : String := "returning_fields"

/-- The pgsql driver's private `internalPrimaryKeyInCtx` key. -/
def internalPrimaryKeyInCtx : String := "internal_primary_key"

/-- Embeds `gdb.InjectReturning` (gdb_core_ctx.go): stores the field list in the
context unless the list is empty, in which case the context is unchanged. -/
def InjectReturning (ctx : Ctx) (fields : List String) : Ctx :=
  if fields.length = 0 then ctx
  else withValue ctx ReturningKeyInCtx (.strList fields)

/-- Embeds `gdb.GetReturningFromCtx` (gdb_core_ctx.go): the stored field list, or
`none` when the key is absent or holds a value of another type. -/
def GetReturningFromCtx (ctx : Ctx) : Option (List String) :=
  match ctxValue ctx ReturningKeyInCtx with
  | some (.strList fields) => some fields
  | some _ => none
  | none => none

/-! ## SQLite driver (contrib/drivers/sqlite) -/

/-- Embeds `sqlite.Result` (sqlite_result.go): wraps the native `sql.Result`
(`none` models a nil interface) plus the records of a RETURNING clause
(`none` models a nil `gdb.Result`). -/
structure SqliteResult where
  native : Option NativeResult
  records : Option (List Record)
  deriving DecidableEq

/-- Embeds `sqlite.Result.RowsAffected` (sqlite_result.go lines 24-32). -/
def SqliteResult.RowsAffected (r : SqliteResult) : Int :=
  match r.records with
  | some rs => rs.length
  | none =>
    match r.native with
    | some n => n.rowsAffected
    | none => 0

/-- Embeds `sqlite.Result.LastInsertId` (sqlite_result.go lines 35-40): delegates to
the native result, or yields 0 when there is none. -/
def SqliteResult.LastInsertId (r : SqliteResult) : Except GErr Int :=
  match r.native with
  | some n => .ok n.lastInsertId
  | none => .ok 0

/-- Embeds `sqlite.Result.GetRecords` (sqlite_result.go lines 45-47). -/
def SqliteResult.GetRecords (r : SqliteResult) : Option (List Record) :=
  r.records

/-- Quoting of one RETURNING field by the sqlite `buildReturningClause`
(sqlite_do_exec.go lines 50-57): trim, pass `*` through, backtick-quote
everything else. -/
def sqliteQuoteReturningField (field : String) : String :=
  let f := strTrim field
  if f = "*" then "*" else "`" ++ f ++ "`"

/-- Embeds `sqlite.buildReturningClause` (sqlite_do_exec.go lines 44-60). -/
def buildReturningClauseSqlite (fields : List String) : String :=
  if fields.length = 0 then ""
  else "RETURNING " ++ joinComma (fields.map sqliteQuoteReturningField)

/-- The observable outcome of `sqlite.Driver.DoExec`: the SQL text handed to
`Core.DoExec`.  The sqlite DoExec always delegates to the core exec path
(`execAsQuery = false`) and always yields the core's native result, with no
records attached. -/
structure SqliteExecDone where
  sqlSent : String
  execAsQuery : Bool
  nativeResult : NativeResult
  deriving DecidableEq, Repr

/-- Embeds `sqlite.Driver.DoExec` (sqlite_do_exec.go lines 22-38): when the context
carries a non-empty field list under the sqlite-internal key, append the
RETURNING clause to the SQL; in every case delegate to `Core.DoExec`
(a plain exec), returning the native result. -/
def sqliteDoExec (ctx : Ctx) (sql : String) (coreResult : NativeResult) : SqliteExecDone :=
  let sql2 :=
    match ctxValue ctx internalReturningInCtx with
    | some (.strList fields) =>
      if fields.length > 0 then sql ++ " " ++ buildReturningClauseSqlite fields else sql
    | some _ => sql
    | none => sql
  { sqlSent := sql2, execAsQuery := false, nativeResult := coreResult }

/-- Embeds `sqlite.Driver.DoInsert` (sqlite_do_insert.go lines 18-25): when the
insert option carries RETURNING fields, inject them into the context through
`gdb.InjectReturning` (the public key, not the sqlite-internal one), then
delegate to `Core.DoInsert`.  Only the context transformation is modelled. -/
def sqliteDoInsertCtx (ctx : Ctx) (returning : List String) : Ctx :=
  if returning.length > 0 then InjectReturning ctx returning else ctx

/-! ## PostgreSQL driver (contrib/drivers/pgsql) -/

/-- One `gdb.TableField` as used by the pgsql driver: name, type and key
marker (`"pri"` for a primary-key column). -/
structure TableField where
  name : String
  ty : String
  key : String
  deriving DecidableEq, Repr

/-- Quoting of one RETURNING field by the pgsql `buildReturningClause`
(pgsql_do_exec.go lines 149-179): trim; pass `*` through; handle the
case-insensitive `OLD.` / `NEW.` prefixes by passing `OLD.*` / `NEW.*`
through and double-quoting only the part after the first dot otherwise;
double-quote every other field whole. -/
def pgQuoteReturningField (field : String) : String :=
  let f := strTrim field
  if f = "*" then "*"
  else if strHasPrefix (strToUpper f) "OLD." then
    match splitFirstDot f.data with
    | (_, some rest) =>
      if (⟨rest⟩ : String) = "*" then "OLD.*"
      else "OLD.\"" ++ (⟨rest⟩ : String) ++ "\""
    | (_, none) => "\"" ++ f ++ "\""
  else if strHasPrefix (strToUpper f) "NEW." then
    match splitFirstDot f.data with
    | (_, some rest) =>
      if (⟨rest⟩ : String) = "*" then "NEW.*"
      else "NEW.\"" ++ (⟨rest⟩ : String) ++ "\""
    | (_, none) => "\"" ++ f ++ "\""
  else "\"" ++ f ++ "\""

/-- Embeds `pgsql.buildReturningClause` (pgsql_do_exec.go lines 143-183). -/
def buildReturningClausePg (fields : List String) : String :=
  if fields.length = 0 then ""
  else "RETURNING " ++ joinComma (fields.map pgQuoteReturningField)

/-- The `pgsql.Result` value as constructed inside `pgsql.Driver.DoExec`
(pgsql_do_exec.go lines 104-135): affected count, last-insert id, an optional
error recorded for `LastInsertId()`, and the optionally attached records.
The Go zero value `Result{}` is `⟨0, 0, none, none⟩`. -/
structure PgResult where
  affected : Int
  lastInsertId : Int
  lastInsertIdError : Option GErr
  records : Option (List Record)
  deriving DecidableEq

/-- The zero value `pgsql.Result{}`. -/
def emptyPgResult : PgResult :=
  { affected := 0, lastInsertId := 0, lastInsertIdError := none, records := none }

/-- Modelled from the spec: the `RowsAffected` method of `pgsql.Result` is
not among the sources (only the struct's construction in DoExec is); §4.3 of
the spec states it returns `len(records)` when records are present, else the
stored affected count. -/
def PgResult.RowsAffected (r : PgResult) : Int :=
  match r.records with
  | some rs => rs.length
  | none => r.affected

/-- Modelled from the spec: the `LastInsertId` method of `pgsql.Result` is
not among the sources; §4.3 of the spec states it returns the stored value,
or the stored error if retrieval was attempted and failed. -/
def PgResult.LastInsertId (r : PgResult) : Except GErr Int :=
  match r.lastInsertIdError with
  | some e => .error e
  | none => .ok r.lastInsertId

/-- The error attached by the user-RETURNING path of pgsql DoExec
(pgsql_do_exec.go lines 107-109). -/
def pgUserReturningLastIdErr : GErr :=
  { code := .notSupported
    msg := "LastInsertId is not supported when using custom RETURNING clause" }

/-- The error attached by the automatic-fallback path of pgsql DoExec when
the primary-key type is not integer-like (pgsql_do_exec.go lines 120-122). -/
def pgPkTypeLastIdErr (ty : String) : GErr :=
  { code := .notSupported
    msg := "LastInsertId is not supported by primary key type: " ++ ty }

/-- A `gdb.Link`: an open connection or transaction handle. -/
structure Link where
  id : Nat
  isTransaction : Bool
  deriving DecidableEq, Repr

/-- The link-resolution block at the top of `pgsql.Driver.DoExec`
(pgsql_do_exec.go lines 31-45): a nil link resolves to the context-bound
transaction when one exists and otherwise to a master-pool link (`none`
models `MasterLink` failing); a supplied non-transaction link is replaced by
the context-bound transaction when one exists; a supplied transaction link is
kept. -/
def resolveLink (link? : Option Link) (txFromCtx : Option Link)
    (masterLink : Option Link) : Option Link :=
  match link? with
  | none =>
    match txFromCtx with
    | some tx => some tx
    | none => masterLink
  | some l =>
    if l.isTransaction then some l
    else
      match txFromCtx with
      | some tx => some tx
      | none => some l

/-- Which of the three execution paths the RETURNING-decision block of pgsql
DoExec (pgsql_do_exec.go lines 47-69) selects. -/
inductive PgDecision where
  | core
  | userReturning (fields : List String)
  | autoReturning (pk : TableField)
  deriving DecidableEq, Repr

/-- The RETURNING-decision block of `pgsql.Driver.DoExec` (pgsql_do_exec.go
lines 47-69): a non-empty user field list from the context wins; otherwise a
`gdb.TableField` stored under the internal primary-key key with a non-empty
name, for a statement containing "INSERT INTO", selects the automatic
fallback; in every other case the core plain-exec path is used. -/
def pgDoExecDecision (ctx : Ctx) (sql : String) : PgDecision :=
  match GetReturningFromCtx ctx with
  | some fields =>
    if fields.length > 0 then .userReturning fields
    else pgDecisionFromPkCtx ctx sql
  | none => pgDecisionFromPkCtx ctx sql
where
  /-- The `else if value := ctx.Value(internalPrimaryKeyInCtx)` arm. -/
  pgDecisionFromPkCtx (ctx : Ctx) (sql : String) : PgDecision :=
    match ctxValue ctx internalPrimaryKeyInCtx with
    | some (.tableField name ty key) =>
      if name ≠ "" ∧ strContains sql "INSERT INTO" then
        .autoReturning ⟨name, ty, key⟩
      else .core
    | some _ => .core
    | none => .core

/-- The environment a single pgsql DoExec call interacts with: the
transaction bound to the context (if any), the master link `MasterLink`
yields (`none` models failure), whether `DoCommit` succeeds, the rows the
database returns for a query-type commit, and the native result of the core
plain-exec path. -/
structure PgEnv where
  txFromCtx : Option Link
  masterLink : Option Link
  commitOk : Bool
  commitRecords : List Record
  coreResult : NativeResult
  deriving DecidableEq

/-- What DoExec handed back, together with the observable facts of the call:
which path ran, the link used, the SQL text sent, and whether the statement
was executed as a row-producing query (`gdb.SqlTypeQueryContext`) rather
than a plain exec. -/
structure PgExecDone where
  path : PgDecision
  linkUsed : Link
  sqlSent : String
  execAsQuery : Bool
  pgResult : Option PgResult
  nativeResult : Option NativeResult
  deriving DecidableEq

/-- The `pgsql.Result` built by the user-RETURNING path of DoExec
(pgsql_do_exec.go lines 103-112). -/
def pgUserResult (env : PgEnv) : PgResult :=
  { affected := env.commitRecords.length, lastInsertId := 0
    lastInsertIdError := some pgUserReturningLastIdErr
    records := some env.commitRecords }

/-- The `pgsql.Result` built by the automatic primary-key RETURNING path of
DoExec (pgsql_do_exec.go lines 114-135): with at least one returned row and
a non-integer primary-key type, the affected count plus a NotSupported
last-insert-id error; with an integer type and a non-nil primary-key cell in
the last row, the affected count plus that cell's value; in every remaining
case the zero `Result{}`. -/
def pgAutoResult (env : PgEnv) (pk : TableField) : PgResult :=
  let affected : Int := env.commitRecords.length
  if affected > 0 then
    if ¬ strContains pk.ty "int" then
      { affected := affected, lastInsertId := 0
        lastInsertIdError := some (pgPkTypeLastIdErr pk.ty)
        records := none }
    else
      match (env.commitRecords.getLast?).bind (fun r => recLookup r pk.name) with
      | some v =>
        { affected := affected, lastInsertId := v.toInt64
          lastInsertIdError := none, records := none }
      | none => emptyPgResult
  else emptyPgResult

/-- The body of `pgsql.Driver.DoExec` after link resolution (pgsql_do_exec.go
lines 47-136): the RETURNING decision is made; the core path delegates to
`Core.DoExec` with the SQL unchanged; both RETURNING paths append a clause
and run the statement as a query through `DoCommit`, then build a
`pgsql.Result` from the returned rows.  `FormatSqlBeforeExecuting` and
`DoFilter` are identity filters for this dialect's mutation statements and
are not modelled. -/
def pgDoExecResolved (env : PgEnv) (ctx : Ctx) (link : Link) (sql : String) :
    Except GErr PgExecDone :=
    match pgDoExecDecision ctx sql with
    | .core =>
      .ok { path := .core, linkUsed := link, sqlSent := sql, execAsQuery := false
            pgResult := none, nativeResult := some env.coreResult }
    | .userReturning fields =>
      let sql2 := sql ++ " " ++ buildReturningClausePg fields
      if env.commitOk then
        .ok { path := .userReturning fields, linkUsed := link, sqlSent := sql2
              execAsQuery := true
              pgResult := some (pgUserResult env)
              nativeResult := none }
      else .error { code := .dbError, msg := "DoCommit failed" }
    | .autoReturning pk =>
      let sql2 := sql ++ " RETURNING \"" ++ pk.name ++ "\""
      if env.commitOk then
        .ok { path := .autoReturning pk, linkUsed := link, sqlSent := sql2
              execAsQuery := true, pgResult := some (pgAutoResult env pk)
              nativeResult := none }
      else .error { code := .dbError, msg := "DoCommit failed" }

/-- Embeds `pgsql.Driver.DoExec` (pgsql_do_exec.go lines 23-136): link
resolution happens first, before any SQL is sent; the rest of the call is
`pgDoExecResolved`. -/
def pgDoExec (env : PgEnv) (ctx : Ctx) (link? : Option Link) (sql : String) :
    Except GErr PgExecDone :=
  match resolveLink link? env.txFromCtx env.masterLink with
  | none => .error { code := .masterLinkError, msg := "MasterLink failed" }
  | some link => pgDoExecResolved env ctx link sql

/-- Decidable equality for the outcome type, so that concrete runs of the
embedded drivers can be settled by `decide`. -/
instance {ε α : Type} [DecidableEq ε] [DecidableEq α] : DecidableEq (Except ε α)
  | .error e, .error f =>
    if h : e = f then .isTrue (by rw [h]) else .isFalse (by intro hh; cases hh; exact h rfl)
  | .error _, .ok _ => .isFalse (by intro hh; cases hh)
  | .ok _, .error _ => .isFalse (by intro hh; cases hh)
  | .ok a, .ok b =>
    if h : a = b then .isTrue (by rw [h]) else .isFalse (by intro hh; cases hh; exact h rfl)

/-- Embeds `gdb.InsertOption` values. -/
inductive InsertOption where
  | default
  | ignore
  | save
  | replace
  deriving DecidableEq, Repr

/-- The part of `gdb.DoInsertOption` this layer reads: the insert mode and
the RETURNING field list. -/
structure DoInsertOption where
  insertOption : InsertOption
  returning : List String
  deriving DecidableEq, Repr

/-- Embeds `pgsql.Driver.DoInsert` (pgsql_do_insert.go lines 19-49), modelled as its
effect on the context handed to `Core.DoInsert` (which eventually reaches
`DoExec`).  `Replace` is rejected with NotSupported.  For the default insert
mode with no explicit RETURNING, the first table field whose key is `"pri"`
(Go iterates the `TableFields` map in unspecified order; the model uses the
order of the given enumeration) is stored under the internal primary-key
key; a failing `TableFields` lookup (`none`) is ignored.  An explicit
non-empty RETURNING list is injected through `gdb.InjectReturning`. -/
def pgDoInsertCtx (ctx : Ctx) (option : DoInsertOption)
    (tableFields : Option (List TableField)) : Except GErr Ctx :=
  match option.insertOption with
  | .replace =>
    .error { code := .notSupported
             msg := "Replace operation is not supported by pgsql driver" }
  | .default =>
    let ctx2 :=
      if option.returning.length = 0 then
        match tableFields with
        | some fs =>
          match fs.find? (fun f => f.key = "pri") with
          | some f => withValue ctx internalPrimaryKeyInCtx (.tableField f.name f.ty f.key)
          | none => ctx
        | none => ctx
      else ctx
    .ok (if option.returning.length > 0 then InjectReturning ctx2 option.returning else ctx2)
  | _ =>
    .ok (if option.returning.length > 0 then InjectReturning ctx option.returning else ctx)

/-- The RETURNING decision reached by a pgsql insert that starts from a fresh
context: `DoInsert`'s context transformation followed by `DoExec`'s decision
block. -/
def pgInsertDecision (option : DoInsertOption) (tableFields : Option (List TableField))
    (sql : String) : Except GErr PgDecision :=
  (pgDoInsertCtx [] option tableFields).map (fun ctx => pgDoExecDecision ctx sql)

/-- The full pgsql insert pipeline from a fresh context: `DoInsert`'s context
transformation, then `DoExec`. -/
def pgInsertPipeline (env : PgEnv) (option : DoInsertOption)
    (tableFields : Option (List TableField)) (link? : Option Link) (sql : String) :
    Except GErr PgExecDone :=
  match pgDoInsertCtx [] option tableFields with
  | .error e => .error e
  | .ok ctx => pgDoExec env ctx link? sql

/-! ## gdb layer: results, the model type and the scan-and-return helpers -/

/-- A `sql.Result` as seen by the gdb layer: either a plain native driver
result, or one of the driver result types that carry RETURNING records. -/
inductive SqlResultV where
  | native (n : NativeResult)
  | sqliteR (r : SqliteResult)
  | pgR (r : PgResult)
  deriving DecidableEq

/-- Embeds `gdb.SqlResultToReturning` (the `ReturningResult` type-assertion): `none`
for a plain native result, which does not implement the interface; the
sqlite and pgsql result types do. -/
def SqlResultToReturning : SqlResultV → Option SqlResultV
  | .native _ => none
  | r => some r

/-- Embeds `GetRecords()` of a result known to implement `gdb.ReturningResult`:
the sqlite method is sqlite_result.go lines 45-47; the pgsql method is not
among the sources and reads the `records` field it was constructed with
(modelled from the spec, §4.3: an explicit absent marker, not an error). -/
def SqlResultV.getRecords : SqlResultV → Option (List Record)
  | .native _ => none
  | .sqliteR r => r.GetRecords
  | .pgR r => r.records

/-- Embeds `LastInsertId()` through the `sql.Result` interface: native results give
the driver value; the sqlite method is sqlite_result.go lines 35-40; the
pgsql method is modelled from the spec (§4.3). -/
def SqlResultV.lastInsertIdCall : SqlResultV → Except GErr Int
  | .native n => .ok n.lastInsertId
  | .sqliteR r => r.LastInsertId
  | .pgR r => r.LastInsertId

/-- The tail of `gdb.Model.doInsertAndScan` (gdb_model_insert_scan.go lines
105-124), shared in shape by `UpdateAndScan` and `DeleteAndScan`: a result
that does not implement `ReturningResult` is a NotSupported failure; absent
or empty records are a NotFound failure; otherwise the records are scanned. -/
def scanReturningRecords (result : SqlResultV) : Except GErr (List Record) :=
  match SqlResultToReturning result with
  | none =>
    .error { code := .notSupported
             msg := "InsertAndScan is not supported by current database driver" }
  | some rr =>
    match rr.getRecords with
    | none => .error { code := .notFound, msg := "no records returned from RETURNING clause" }
    | some [] => .error { code := .notFound, msg := "no records returned from RETURNING clause" }
    | some recs => .ok recs

/-- The part of `gdb.Model` this layer reads (part of gdb_model.go, declared
by the `Returning` method file): the RETURNING field list. -/
structure Model where
  returning : List String
  deriving DecidableEq, Repr

/-- Embeds `gdb.Model.Returning` (Model returning file lines 34-38). -/
def Model.Returning (m : Model) (fields : List String) : Model :=
  { m with returning := fields }

/-- Embeds `gdb.Model.ReturningAll` (Model returning file lines 49-53). -/
def Model.ReturningAll (m : Model) : Model :=
  { m with returning := ["*"] }

/-- The dialects relevant to the claims: the two drivers among the sources,
plus a dialect with no RETURNING support at all (MySQL / ClickHouse). -/
inductive Dialect where
  | pgsql
  | sqlite
  | mysqlLike
  deriving DecidableEq, Repr

/-- The external state one high-level insert call sees. -/
structure World where
  pgEnv : PgEnv
  tableFields : Option (List TableField)
  sqliteNative : NativeResult
  mysqlNative : NativeResult
  insertSql : String
  deriving DecidableEq

/-- One high-level `Model.Insert()` dispatched to a driver, returning the
`sql.Result` the caller sees.
For pgsql this is `DoInsert` + `DoExec` (pgsql_do_insert.go, pgsql_do_exec.go);
the core path hands back the native result and the RETURNING paths the
`pgsql.Result`.
For sqlite this is `DoInsert` + `DoExec`
(sqlite_do_insert.go, sqlite_do_exec.go): `DoInsert` injects the field list
under `gdb.ReturningKeyInCtx` while `DoExec` reads the different
sqlite-internal key, so the clause is dropped and the native result of the
plain exec is returned.
Modelled from the spec for `mysqlLike`: the core driver of a dialect without
RETURNING support is not among the sources; per the documentation of
`Model.Returning` ("MySQL: Not supported, the clause will be silently
ignored") the field list is ignored and the native result returned. -/
def modelInsert (d : Dialect) (m : Model) (w : World) : Except GErr SqlResultV :=
  match d with
  | .pgsql =>
    match pgInsertPipeline w.pgEnv ⟨.default, m.returning⟩ w.tableFields none w.insertSql with
    | .error e => .error e
    | .ok done =>
      match done.pgResult with
      | some r => .ok (.pgR r)
      | none =>
        match done.nativeResult with
        | some n => .ok (.native n)
        | none => .ok (.native w.pgEnv.coreResult)
  | .sqlite =>
    let ctx := sqliteDoInsertCtx [] m.returning
    let done := sqliteDoExec ctx w.insertSql w.sqliteNative
    .ok (.native done.nativeResult)
  | .mysqlLike => .ok (.native w.mysqlNative)

/-- Embeds `gdb.Model.doInsertAndScan` (gdb_model_insert_scan.go lines 77-125) for
the default insert mode: force `ReturningAll`, run the insert, then demand
RETURNING records from the result.  The final `records.Structs(pointer)`
reflection step is outside this layer; the scanned records are returned. -/
def Model.doInsertAndScan (m : Model) (d : Dialect) (w : World) :
    Except GErr (List Record) :=
  let model := m.ReturningAll
  match modelInsert d model w with
  | .error e => .error e
  | .ok result => scanReturningRecords result

/-! ## Materializer (`gdb.Result.ScanList`)

Modelled from the spec: the `ScanList` implementation is not among the
sources (only its unit tests are).  Spec §4.4: given a related RecordSet and
a destination sequence, index the related rows by the child correlation
column, give each destination element the rows whose key matches its own
correlation value — all of them, in row order, for cardinality "many" (an
empty sequence when none match), the first for cardinality "one" (the zero
value when none match) — and reuse the existing destination elements,
touching only the bound attribute. -/

/-- A destination element of the object graph: its scanned correlation key
and its two bindable attributes.  `none` is the attribute's zero value. -/
structure DestElem where
  key : Int
  one : Option Record
  many : Option (List Record)
  deriving DecidableEq

/-- The related rows matching one destination element: the rows whose child
correlation column holds the element's key, in the related set's row order. -/
def relatedMatches (related : List Record) (childColumn : String) (e : DestElem) :
    List Record :=
  related.filter (fun r => (recLookup r childColumn).map Val.toInt64 = some e.key)

/-- Binding a cardinality-"many" attribute: each existing destination element
is kept (same key, untouched `one` attribute) and its `many` attribute is set
to all matching related rows, an empty list when none match. -/
def bindMany (related : List Record) (childColumn : String) (dest : List DestElem) :
    List DestElem :=
  dest.map (fun e => { e with many := some (relatedMatches related childColumn e) })

/-- Binding a cardinality-"one" attribute: each existing destination element
is kept (same key, untouched `many` attribute) and its `one` attribute is set
to the first matching related row, the zero value when none match. -/
def bindOne (related : List Record) (childColumn : String) (dest : List DestElem) :
    List DestElem :=
  dest.map (fun e => { e with one := (relatedMatches related childColumn e).head? })

/-! ## The returning clause as the spec's words describe it (for C8) -/

/-- The quoting rule exactly as the claim states it for PostgreSQL: the
wildcard passes through, every other field name is double-quoted whole. -/
def claimQuotePg (f : String) : String :=
  if f = "*" then "*" else "\"" ++ f ++ "\""

/-- The clause exactly as the claim states it for PostgreSQL. -/
def claimClausePg (fields : List String) : String :=
  if fields = [] then ""
  else "RETURNING " ++ joinComma (fields.map claimQuotePg)

/-- The quoting rule exactly as the claim states it for SQLite: the wildcard
passes through, every other field name is backtick-quoted whole. -/
def claimQuoteSqlite (f : String) : String :=
  if f = "*" then "*" else "`" ++ f ++ "`"

/-- The clause exactly as the claim states it for SQLite. -/
def claimClauseSqlite (fields : List String) : String :=
  if fields = [] then ""
  else "RETURNING " ++ joinComma (fields.map claimQuoteSqlite)

/-- A field counts as OLD/NEW-prefixed for the pgsql builder when its
uppercased form starts with `OLD.` or `NEW.`. -/
def pgIsOldNewPrefixed (f : String) : Bool :=
  strHasPrefix (strToUpper f) "OLD." || strHasPrefix (strToUpper f) "NEW."

/-! ## Theorems -/

/-- Helper: rebuilding a string from its own character list is the
identity. -/
theorem stringMkData (s : String) : (⟨s.data⟩ : String) = s := by
  cases s
  rfl

/-- Helper: on the core decision, DoExec after link resolution delegates the
unchanged SQL to the plain exec path and returns the native result. -/
theorem pgDoExecResolved_core (env : PgEnv) (ctx : Ctx) (l : Link) (sql : String)
    (h : pgDoExecDecision ctx sql = .core) :
    pgDoExecResolved env ctx l sql =
      .ok { path := .core, linkUsed := l, sqlSent := sql, execAsQuery := false
            pgResult := none, nativeResult := some env.coreResult } := by
  unfold pgDoExecResolved
  rw [h]

/-- Helper: on the user-RETURNING decision with a successful commit, DoExec
after link resolution appends the clause, runs the statement as a query and
returns the user result. -/
theorem pgDoExecResolved_user (env : PgEnv) (ctx : Ctx) (l : Link) (sql : String)
    (fields : List String) (h : pgDoExecDecision ctx sql = .userReturning fields)
    (hc : env.commitOk = true) :
    pgDoExecResolved env ctx l sql =
      .ok { path := .userReturning fields, linkUsed := l
            sqlSent := sql ++ " " ++ buildReturningClausePg fields
            execAsQuery := true, pgResult := some (pgUserResult env)
            nativeResult := none } := by
  unfold pgDoExecResolved
  rw [h]
  simp [hc]

/-- Helper: on the automatic-fallback decision with a successful commit,
DoExec after link resolution appends the primary-key clause, runs the
statement as a query and returns the auto result. -/
theorem pgDoExecResolved_auto (env : PgEnv) (ctx : Ctx) (l : Link) (sql : String)
    (pk : TableField) (h : pgDoExecDecision ctx sql = .autoReturning pk)
    (hc : env.commitOk = true) :
    pgDoExecResolved env ctx l sql =
      .ok { path := .autoReturning pk, linkUsed := l
            sqlSent := sql ++ " RETURNING \"" ++ pk.name ++ "\""
            execAsQuery := true, pgResult := some (pgAutoResult env pk)
            nativeResult := none } := by
  unfold pgDoExecResolved
  rw [h]
  simp [hc]

/-- Helper: once the link resolves, DoExec is its resolved body. -/
theorem pgDoExec_resolved (env : PgEnv) (ctx : Ctx) (link? : Option Link) (l : Link)
    (sql : String) (hr : resolveLink link? env.txFromCtx env.masterLink = some l) :
    pgDoExec env ctx link? sql = pgDoExecResolved env ctx l sql := by
  unfold pgDoExec
  rw [hr]

/-- Helper: every `pgsql.Result` a successful DoExec attaches is either the
user-RETURNING result or an automatic-fallback result. -/
theorem pgDoExec_pgResult_inv (env : PgEnv) (ctx : Ctx) (link? : Option Link)
    (sql : String) (done : PgExecDone) (r : PgResult)
    (h : pgDoExec env ctx link? sql = .ok done) (hp : done.pgResult = some r) :
    r = pgUserResult env ∨ ∃ pk, r = pgAutoResult env pk := by
  unfold pgDoExec at h
  revert h
  cases resolveLink link? env.txFromCtx env.masterLink with
  | none => intro h; cases h
  | some l =>
    intro h
    unfold pgDoExecResolved at h
    revert h
    cases pgDoExecDecision ctx sql with
    | core =>
      intro h; cases h
      cases hp
    | userReturning fields =>
      intro h
      by_cases hc : env.commitOk = true
      · simp only [hc, if_true] at h; cases h
        exact Or.inl (Option.some.inj hp).symm
      · simp only [hc, if_false] at h; cases h
    | autoReturning pk =>
      intro h
      by_cases hc : env.commitOk = true
      · simp only [hc, if_true] at h; cases h
        exact Or.inr ⟨pk, (Option.some.inj hp).symm⟩
      · simp only [hc, if_false] at h; cases h

/-- Helper: the automatic-fallback result never carries records. -/
theorem pgAutoResult_records (env : PgEnv) (pk : TableField) :
    (pgAutoResult env pk).records = none := by
  unfold pgAutoResult
  dsimp only
  split
  · split
    · rfl
    · split <;> rfl
  · rfl

/-- C10: `GetReturningFromCtx` is a right inverse of `InjectReturning` for
non-empty field lists; `InjectReturning` with an empty list returns the
context unchanged; and on a context carrying nothing under the returning
key, `GetReturningFromCtx` returns the absent marker `none`. -/
theorem gf_c10_ctx_roundtrip :
    (∀ (ctx : Ctx) (fields : List String), fields ≠ [] →
      GetReturningFromCtx (InjectReturning ctx fields) = some fields) ∧
    (∀ ctx : Ctx, InjectReturning ctx [] = ctx) ∧
    (∀ ctx : Ctx, ctxValue ctx ReturningKeyInCtx = none →
      GetReturningFromCtx ctx = none) := by
  refine ⟨fun ctx fields hne => ?_, fun ctx => rfl, fun ctx h => ?_⟩
  · have hlen : fields.length ≠ 0 := fun h0 => hne (List.eq_nil_of_length_eq_zero h0)
    simp [InjectReturning, hlen, GetReturningFromCtx, ctxValue, withValue, List.find?]
  · simp [GetReturningFromCtx, h]

/-- Witness for C10 at concrete inputs. -/
theorem gf_c10_ctx_roundtrip_witness :
    GetReturningFromCtx (InjectReturning [] ["id", "name"]) = some ["id", "name"] ∧
    InjectReturning [("k", CtxVal.otherVal)] [] = [("k", CtxVal.otherVal)] ∧
    GetReturningFromCtx [("k", CtxVal.otherVal)] = none :=
  ⟨gf_c10_ctx_roundtrip.1 [] ["id", "name"] (by simp),
   gf_c10_ctx_roundtrip.2.1 [("k", CtxVal.otherVal)],
   gf_c10_ctx_roundtrip.2.2 [("k", CtxVal.otherVal)] (by decide)⟩

/-- A sample returned row used by concrete witnesses. -/
def sampleRecord : Record := [("id", Val.intVal 7), ("name", Val.strVal "john")]

/-- A sample non-transaction connection link. -/
def sampleLink : Link := ⟨0, false⟩

/-- A sample environment whose commit succeeds with one returned row. -/
def userEnv : PgEnv :=
  { txFromCtx := none, masterLink := some sampleLink, commitOk := true
    commitRecords := [sampleRecord], coreResult := ⟨1, 9⟩ }

/-- A sample context carrying an explicit RETURNING field list. -/
def userCtx : Ctx := InjectReturning [] ["id", "name"]

/-- A sample insert statement. -/
def insertSqlEx : String := "INSERT INTO \"user\"(\"name\") VALUES($1)"

/-- C1: a result with attached records reports their number as its affected
count — the sqlite `RowsAffected` returns `len(records)` whenever records
are attached, and every `pgsql.Result` that DoExec attaches records to has
`affected = len(records)`, which its `RowsAffected` reports; a result with
no records attached reports the driver-recorded affected count. -/
theorem gf_c1_rows_affected :
    (∀ (r : SqliteResult) (rs : List Record), r.records = some rs →
      r.RowsAffected = rs.length) ∧
    (∀ (r : SqliteResult) (n : NativeResult), r.records = none → r.native = some n →
      r.RowsAffected = n.rowsAffected) ∧
    (∀ (env : PgEnv) (ctx : Ctx) (link? : Option Link) (sql : String)
      (done : PgExecDone) (r : PgResult) (rs : List Record),
      pgDoExec env ctx link? sql = .ok done → done.pgResult = some r →
      r.records = some rs → r.affected = rs.length ∧ r.RowsAffected = rs.length) ∧
    (∀ r : PgResult, r.records = none → r.RowsAffected = r.affected) := by
  refine ⟨fun r rs h => ?_, fun r n h hn => ?_, ?_, fun r h => ?_⟩
  · unfold SqliteResult.RowsAffected
    rw [h]
  · unfold SqliteResult.RowsAffected
    rw [h, hn]
  · intro env ctx link? sql done r rs h hp hrec
    rcases pgDoExec_pgResult_inv env ctx link? sql done r h hp with hu | ⟨pk, ha⟩
    · subst hu
      have : env.commitRecords = rs := by
        have := hrec
        unfold pgUserResult at this
        exact Option.some.inj this
      subst this
      constructor
      · rfl
      · unfold PgResult.RowsAffected
        rw [hrec]
    · rw [ha, pgAutoResult_records env pk] at hrec
      cases hrec
  · unfold PgResult.RowsAffected
    rw [h]

/-- Witness for C1 at concrete inputs. -/
theorem gf_c1_rows_affected_witness :
    SqliteResult.RowsAffected ⟨some ⟨1, 5⟩, some [sampleRecord]⟩ = 1 ∧
    SqliteResult.RowsAffected ⟨some ⟨3, 5⟩, none⟩ = 3 ∧
    ((pgUserResult userEnv).affected = 1 ∧ (pgUserResult userEnv).RowsAffected = 1) ∧
    PgResult.RowsAffected ⟨4, 0, none, none⟩ = 4 :=
  ⟨gf_c1_rows_affected.1 ⟨some ⟨1, 5⟩, some [sampleRecord]⟩ [sampleRecord] rfl,
   gf_c1_rows_affected.2.1 ⟨some ⟨3, 5⟩, none⟩ ⟨3, 5⟩ rfl rfl,
   gf_c1_rows_affected.2.2.1 userEnv userCtx none insertSqlEx
     { path := .userReturning ["id", "name"], linkUsed := sampleLink
       sqlSent := insertSqlEx ++ " RETURNING \"id\", \"name\""
       execAsQuery := true, pgResult := some (pgUserResult userEnv)
       nativeResult := none }
     (pgUserResult userEnv) [sampleRecord] (by decide) rfl rfl,
   gf_c1_rows_affected.2.2.2 ⟨4, 0, none, none⟩ rfl⟩

/-- C7: link resolution in pgsql DoExec — with no supplied link the
context-bound transaction is used when present, otherwise the master link; a
supplied link that is a transaction is never replaced; and every successful
DoExec call used exactly the link that this resolution step produced (the
resolution happens once, before any SQL is sent). -/
theorem gf_c7_link_resolution :
    (∀ (tx : Link) (masterL : Option Link), resolveLink none (some tx) masterL = some tx) ∧
    (∀ m : Link, resolveLink none none (some m) = some m) ∧
    (∀ (l : Link) (tx masterL : Option Link), l.isTransaction = true →
      resolveLink (some l) tx masterL = some l) ∧
    (∀ (env : PgEnv) (ctx : Ctx) (link? : Option Link) (sql : String) (done : PgExecDone),
      pgDoExec env ctx link? sql = .ok done →
      some done.linkUsed = resolveLink link? env.txFromCtx env.masterLink) := by
  have hres : ∀ (env : PgEnv) (ctx : Ctx) (l : Link) (sql : String) (done : PgExecDone),
      pgDoExecResolved env ctx l sql = .ok done → done.linkUsed = l := by
    intro env ctx l sql done h
    unfold pgDoExecResolved at h
    revert h
    cases pgDoExecDecision ctx sql with
    | core => intro h; cases h; rfl
    | userReturning fields =>
      intro h
      by_cases hc : env.commitOk = true
      · simp only [hc, if_true] at h; cases h; rfl
      · simp only [hc, if_false] at h; cases h
    | autoReturning pk =>
      intro h
      by_cases hc : env.commitOk = true
      · simp only [hc, if_true] at h; cases h; rfl
      · simp only [hc, if_false] at h; cases h
  refine ⟨fun tx masterL => rfl, fun m => rfl, fun l tx masterL h => ?_, ?_⟩
  · simp [resolveLink, h]
  · intro env ctx link? sql done h
    unfold pgDoExec at h
    revert h
    cases hr : resolveLink link? env.txFromCtx env.masterLink with
    | none => intro h; cases h
    | some l => intro h; rw [hres env ctx l sql done h]

/-- Witness for C7 at concrete inputs. -/
theorem gf_c7_link_resolution_witness :
    resolveLink none (some ⟨3, true⟩) (some ⟨0, false⟩) = some ⟨3, true⟩ ∧
    resolveLink none none (some ⟨0, false⟩) = some ⟨0, false⟩ ∧
    resolveLink (some ⟨5, true⟩) (some ⟨3, true⟩) none = some ⟨5, true⟩ ∧
    some (⟨0, false⟩ : Link) =
      resolveLink none none (some ⟨0, false⟩) :=
  ⟨gf_c7_link_resolution.1 ⟨3, true⟩ (some ⟨0, false⟩),
   gf_c7_link_resolution.2.1 ⟨0, false⟩,
   gf_c7_link_resolution.2.2.1 ⟨5, true⟩ (some ⟨3, true⟩) none rfl,
   gf_c7_link_resolution.2.2.2
     { txFromCtx := none, masterLink := some ⟨0, false⟩, commitOk := true
       commitRecords := [], coreResult := ⟨0, 0⟩ }
     [] none "UPDATE t SET a = 1"
     { path := .core, linkUsed := ⟨0, false⟩, sqlSent := "UPDATE t SET a = 1"
       execAsQuery := false, pgResult := none, nativeResult := some ⟨0, 0⟩ }
     (by decide)⟩

/-- Helper: the RETURNING decision on an empty context is the core path. -/
theorem pgDecision_empty (sql : String) : pgDoExecDecision [] sql = .core := rfl

/-- Helper: the RETURNING decision on a context that carries exactly an
injected non-empty field list is the user-RETURNING path. -/
theorem pgDecision_inject (fields : List String) (sql : String) (h : fields ≠ []) :
    pgDoExecDecision (InjectReturning [] fields) sql = .userReturning fields := by
  have hlen : fields.length ≠ 0 := fun h0 => h (List.eq_nil_of_length_eq_zero h0)
  have hpos : 0 < fields.length := Nat.pos_of_ne_zero hlen
  simp [InjectReturning, hlen, pgDoExecDecision, GetReturningFromCtx, ctxValue,
    withValue, List.find?, hpos]

/-- Helper: the RETURNING decision on a context that carries exactly a stored
primary-key table field. -/
theorem pgDecision_pkctx (name ty key sql : String) :
    pgDoExecDecision [(internalPrimaryKeyInCtx, .tableField name ty key)] sql =
      if name ≠ "" ∧ strContains sql "INSERT INTO" then .autoReturning ⟨name, ty, key⟩
      else .core := rfl

/-- C4 counterexample: the sqlite driver's DoExec, given an explicitly
requested RETURNING field list, appends the clause but still executes the
statement through the plain exec path — not as a row-producing query — and
hands back the native driver result, to which no records are attached.  The
claim as stated (query execution, records built from returned rows) is
therefore false for this driver. -/
theorem gf_c4_counterexample :
    (sqliteDoExec [(internalReturningInCtx, .strList ["id"])]
        "INSERT INTO `user`(`name`) VALUES(?)" ⟨1, 5⟩).execAsQuery = false ∧
    (sqliteDoExec [(internalReturningInCtx, .strList ["id"])]
        "INSERT INTO `user`(`name`) VALUES(?)" ⟨1, 5⟩).sqlSent =
      "INSERT INTO `user`(`name`) VALUES(?) RETURNING `id`" ∧
    SqlResultV.getRecords
      (.native (sqliteDoExec [(internalReturningInCtx, .strList ["id"])]
        "INSERT INTO `user`(`name`) VALUES(?)" ⟨1, 5⟩).nativeResult) = none := by
  decide

/-- C4 amended: on PostgreSQL, a mutation whose context carries an explicit
RETURNING field list has the clause appended, is executed as a row-producing
query, and yields a result whose records are the returned rows and whose
affected count is their number; the sqlite driver appends the clause but
executes through the plain exec path, returning the native result with no
records. -/
theorem gf_c4_returning_execution :
    (∀ (env : PgEnv) (ctx : Ctx) (link? : Option Link) (l : Link) (sql : String)
       (fields : List String),
      pgDoExecDecision ctx sql = .userReturning fields →
      resolveLink link? env.txFromCtx env.masterLink = some l →
      env.commitOk = true →
      pgDoExec env ctx link? sql = .ok
        { path := .userReturning fields, linkUsed := l
          sqlSent := sql ++ " " ++ buildReturningClausePg fields
          execAsQuery := true
          pgResult := some (pgUserResult env), nativeResult := none } ∧
      (pgUserResult env).records = some env.commitRecords ∧
      (pgUserResult env).affected = env.commitRecords.length) ∧
    (∀ (ctx : Ctx) (sql : String) (fields : List String) (n : NativeResult),
      ctxValue ctx internalReturningInCtx = some (.strList fields) → fields ≠ [] →
      sqliteDoExec ctx sql n =
        { sqlSent := sql ++ " " ++ buildReturningClauseSqlite fields
          execAsQuery := false, nativeResult := n }) := by
  constructor
  · intro env ctx link? l sql fields hd hr hc
    refine ⟨?_, rfl, rfl⟩
    rw [pgDoExec_resolved env ctx link? l sql hr,
      pgDoExecResolved_user env ctx l sql fields hd hc]
  · intro ctx sql fields n h hne
    have hlen : fields.length ≠ 0 := fun h0 => hne (List.eq_nil_of_length_eq_zero h0)
    have hpos : 0 < fields.length := Nat.pos_of_ne_zero hlen
    unfold sqliteDoExec
    rw [h]
    simp [hpos]

/-- Witness for C4 at concrete inputs. -/
theorem gf_c4_returning_execution_witness :
    (pgDoExec userEnv userCtx none insertSqlEx = .ok
      { path := .userReturning ["id", "name"], linkUsed := sampleLink
        sqlSent := insertSqlEx ++ " " ++ buildReturningClausePg ["id", "name"]
        execAsQuery := true
        pgResult := some (pgUserResult userEnv), nativeResult := none } ∧
     (pgUserResult userEnv).records = some userEnv.commitRecords ∧
     (pgUserResult userEnv).affected = userEnv.commitRecords.length) ∧
    sqliteDoExec [(internalReturningInCtx, .strList ["name"])] "DELETE FROM t" ⟨2, 0⟩ =
      { sqlSent := "DELETE FROM t" ++ " " ++ buildReturningClauseSqlite ["name"]
        execAsQuery := false, nativeResult := ⟨2, 0⟩ } :=
  ⟨gf_c4_returning_execution.1 userEnv userCtx none sampleLink insertSqlEx ["id", "name"]
     (by decide) rfl rfl,
   gf_c4_returning_execution.2 [(internalReturningInCtx, .strList ["name"])]
     "DELETE FROM t" ["name"] ⟨2, 0⟩ (by decide) (by decide)⟩

/-- C5 counterexample: on the sqlite driver, an insert carrying an explicit
RETURNING field list produces the native driver result, whose
`LastInsertId()` yields the driver-derived value 42 — not a NotSupported
error.  The claim as stated is therefore false for this driver. -/
theorem gf_c5_counterexample :
    modelInsert .sqlite (Model.Returning ⟨[]⟩ ["id"])
      { pgEnv := userEnv, tableFields := some [⟨"id", "int8", "pri"⟩]
        sqliteNative := ⟨1, 42⟩, mysqlNative := ⟨1, 7⟩, insertSql := insertSqlEx } =
      .ok (.native ⟨1, 42⟩) ∧
    SqlResultV.lastInsertIdCall (.native ⟨1, 42⟩) = .ok 42 := by
  decide

/-- C5 amended: on PostgreSQL, every result produced by the user-RETURNING
path carries the NotSupported last-insert-id error and its `LastInsertId()`
yields that error; the sqlite result instead delegates `LastInsertId()` to
the native driver value and never yields a NotSupported error. -/
theorem gf_c5_last_insert_id :
    (∀ (env : PgEnv) (ctx : Ctx) (link? : Option Link) (sql : String)
       (done : PgExecDone) (fields : List String),
      pgDoExec env ctx link? sql = .ok done → done.path = .userReturning fields →
      done.pgResult = some (pgUserResult env) ∧
      (pgUserResult env).lastInsertIdError = some pgUserReturningLastIdErr ∧
      (pgUserResult env).LastInsertId = .error pgUserReturningLastIdErr ∧
      pgUserReturningLastIdErr.code = .notSupported) ∧
    (∀ (r : SqliteResult) (n : NativeResult), r.native = some n →
      r.LastInsertId = .ok n.lastInsertId) := by
  constructor
  · intro env ctx link? sql done fields h hpath
    refine ⟨?_, rfl, rfl, rfl⟩
    unfold pgDoExec at h
    revert h
    cases resolveLink link? env.txFromCtx env.masterLink with
    | none => intro h; cases h
    | some l =>
      intro h
      unfold pgDoExecResolved at h
      revert h
      cases pgDoExecDecision ctx sql with
      | core => intro h; cases h; cases hpath
      | userReturning fs =>
        intro h
        by_cases hc : env.commitOk = true
        · simp only [hc, if_true] at h; cases h; rfl
        · simp only [hc, if_false] at h; cases h
      | autoReturning pk =>
        intro h
        by_cases hc : env.commitOk = true
        · simp only [hc, if_true] at h; cases h; cases hpath
        · simp only [hc, if_false] at h; cases h
  · intro r n h
    unfold SqliteResult.LastInsertId
    rw [h]

/-- Witness for C5 at concrete inputs. -/
theorem gf_c5_last_insert_id_witness :
    (some (pgUserResult userEnv) = some (pgUserResult userEnv) ∧
     (pgUserResult userEnv).lastInsertIdError = some pgUserReturningLastIdErr ∧
     (pgUserResult userEnv).LastInsertId = .error pgUserReturningLastIdErr ∧
     pgUserReturningLastIdErr.code = .notSupported) ∧
    SqliteResult.LastInsertId ⟨some ⟨1, 42⟩, none⟩ = .ok 42 :=
  ⟨gf_c5_last_insert_id.1 userEnv userCtx none insertSqlEx
     { path := .userReturning ["id", "name"], linkUsed := sampleLink
       sqlSent := insertSqlEx ++ " " ++ buildReturningClausePg ["id", "name"]
       execAsQuery := true
       pgResult := some (pgUserResult userEnv), nativeResult := none }
     ["id", "name"] (by decide) rfl,
   gf_c5_last_insert_id.2 ⟨some ⟨1, 42⟩, none⟩ ⟨1, 42⟩ rfl⟩

/-- C6 counterexample: when the automatic fallback fires for a non-integer
primary key and the query returns zero rows, pgsql DoExec produces the zero
`Result{}`, whose `lastInsertIdError` is not set at all — the claim's
requirement that the error be a NotSupported error fails in this case. -/
theorem gf_c6_counterexample :
    pgDoExec
      { txFromCtx := none, masterLink := some sampleLink, commitOk := true
        commitRecords := [], coreResult := ⟨0, 0⟩ }
      [(internalPrimaryKeyInCtx, .tableField "id" "text" "pri")] none insertSqlEx =
      .ok { path := .autoReturning ⟨"id", "text", "pri"⟩, linkUsed := sampleLink
            sqlSent := insertSqlEx ++ " RETURNING \"id\"", execAsQuery := true
            pgResult := some emptyPgResult, nativeResult := none } ∧
    emptyPgResult.lastInsertIdError = none ∧
    strContains "text" "int" = false := by
  decide

/-- C6 amended: when the automatic fallback fires for a primary key whose
type is not integer-compatible and the commit succeeds, DoExec returns
successfully (the fallback never turns the mutation into a failure); with at
least one returned row the result keeps the real affected count, has no
last-insert id, and carries the NotSupported error; with zero returned rows
the result is the zero `Result{}` with neither value nor error set. -/
theorem gf_c6_auto_fallback_nonint :
    ∀ (env : PgEnv) (ctx : Ctx) (link? : Option Link) (l : Link) (sql : String)
      (pk : TableField),
      pgDoExecDecision ctx sql = .autoReturning pk →
      strContains pk.ty "int" = false →
      resolveLink link? env.txFromCtx env.masterLink = some l →
      env.commitOk = true →
      pgDoExec env ctx link? sql = .ok
        { path := .autoReturning pk, linkUsed := l
          sqlSent := sql ++ " RETURNING \"" ++ pk.name ++ "\""
          execAsQuery := true, pgResult := some (pgAutoResult env pk)
          nativeResult := none } ∧
      (env.commitRecords ≠ [] →
        pgAutoResult env pk =
          { affected := env.commitRecords.length, lastInsertId := 0
            lastInsertIdError := some (pgPkTypeLastIdErr pk.ty), records := none } ∧
        (pgPkTypeLastIdErr pk.ty).code = .notSupported ∧
        (pgAutoResult env pk).LastInsertId = .error (pgPkTypeLastIdErr pk.ty)) ∧
      (env.commitRecords = [] → pgAutoResult env pk = emptyPgResult) := by
  intro env ctx link? l sql pk hd hty hr hc
  have hauto : ∀ h : env.commitRecords ≠ [],
      pgAutoResult env pk =
        { affected := env.commitRecords.length, lastInsertId := 0
          lastInsertIdError := some (pgPkTypeLastIdErr pk.ty), records := none } := by
    intro hne
    have hpos : 0 < env.commitRecords.length := List.length_pos.mpr hne
    have hposInt : (0 : Int) < env.commitRecords.length := by exact_mod_cast hpos
    unfold pgAutoResult
    simp [hposInt, hty]
  refine ⟨?_, fun hne => ⟨hauto hne, rfl, ?_⟩, fun hnil => ?_⟩
  · rw [pgDoExec_resolved env ctx link? l sql hr,
      pgDoExecResolved_auto env ctx l sql pk hd hc]
  · rw [hauto hne]
    rfl
  · unfold pgAutoResult
    simp [hnil]

/-- Witness for C6 at concrete inputs (one returned row, `text` primary
key). -/
theorem gf_c6_auto_fallback_nonint_witness :
    (pgDoExec userEnv [(internalPrimaryKeyInCtx, .tableField "id" "text" "pri")]
        none insertSqlEx = .ok
      { path := .autoReturning ⟨"id", "text", "pri"⟩, linkUsed := sampleLink
        sqlSent := insertSqlEx ++ " RETURNING \"id\"", execAsQuery := true
        pgResult := some (pgAutoResult userEnv ⟨"id", "text", "pri"⟩)
        nativeResult := none } ∧
     (userEnv.commitRecords ≠ [] →
       pgAutoResult userEnv ⟨"id", "text", "pri"⟩ =
         { affected := userEnv.commitRecords.length, lastInsertId := 0
           lastInsertIdError := some (pgPkTypeLastIdErr "text"), records := none } ∧
       (pgPkTypeLastIdErr "text").code = .notSupported ∧
       (pgAutoResult userEnv ⟨"id", "text", "pri"⟩).LastInsertId =
         .error (pgPkTypeLastIdErr "text")) ∧
     (userEnv.commitRecords = [] →
       pgAutoResult userEnv ⟨"id", "text", "pri"⟩ = emptyPgResult)) :=
  gf_c6_auto_fallback_nonint userEnv
    [(internalPrimaryKeyInCtx, .tableField "id" "text" "pri")] none sampleLink
    insertSqlEx ⟨"id", "text", "pri"⟩ (by decide) (by decide) rfl rfl

/-- C3 counterexample: a default-mode insert with no explicit RETURNING on a
table whose single primary-key column has the non-integer type `text` still
selects the automatic fallback — the clause is appended and the statement
run as a query — even though the claim requires an integer-typed primary
key for the fallback to fire. -/
theorem gf_c3_counterexample :
    pgInsertDecision ⟨.default, []⟩ (some [⟨"id", "text", "pri"⟩]) insertSqlEx =
      .ok (.autoReturning ⟨"id", "text", "pri"⟩) ∧
    strContains "text" "int" = false := by
  decide

/-- C3 amended: the automatic fallback fires if and only if no explicit
RETURNING list was given, the insert uses the default mode, the table-field
lookup succeeded and its first `"pri"`-keyed column is the fallback's column
with a non-empty name (regardless of its type and of how many primary-key
columns exist), and the statement contains "INSERT INTO"; whenever the
decision is the core path, DoExec delegates the unchanged SQL to the plain
exec path and returns the native result. -/
theorem gf_c3_auto_fallback_iff :
    (∀ (option : DoInsertOption) (tfs : Option (List TableField)) (sql : String)
       (pk : TableField),
      pgInsertDecision option tfs sql = .ok (.autoReturning pk) ↔
        (option.returning = [] ∧ option.insertOption = .default ∧
         (∃ fs, tfs = some fs ∧ fs.find? (fun f => f.key = "pri") = some pk) ∧
         pk.name ≠ "" ∧ strContains sql "INSERT INTO" = true)) ∧
    (∀ (env : PgEnv) (ctx : Ctx) (link? : Option Link) (l : Link) (sql : String),
      pgDoExecDecision ctx sql = .core →
      resolveLink link? env.txFromCtx env.masterLink = some l →
      pgDoExec env ctx link? sql = .ok
        { path := .core, linkUsed := l, sqlSent := sql, execAsQuery := false
          pgResult := none, nativeResult := some env.coreResult }) := by
  constructor
  · intro option tfs sql pk
    unfold pgInsertDecision pgDoInsertCtx
    cases hop : option.insertOption with
    | replace => simp [hop, Except.map]
    | ignore =>
      by_cases hret : option.returning = []
      · simp [hret, hop, Except.map, pgDecision_empty]
      · have hpos : 0 < option.returning.length :=
          Nat.pos_of_ne_zero (fun h0 => hret (List.eq_nil_of_length_eq_zero h0))
        simp [hpos, hret, hop, Except.map, pgDecision_inject option.returning sql hret]
    | save =>
      by_cases hret : option.returning = []
      · simp [hret, hop, Except.map, pgDecision_empty]
      · have hpos : 0 < option.returning.length :=
          Nat.pos_of_ne_zero (fun h0 => hret (List.eq_nil_of_length_eq_zero h0))
        simp [hpos, hret, hop, Except.map, pgDecision_inject option.returning sql hret]
    | default =>
      by_cases hret : option.returning = []
      · cases tfs with
        | none => simp [hret, Except.map, pgDecision_empty]
        | some fs =>
          cases hfind : fs.find? (fun f => f.key = "pri") with
          | none => simp [hret, hfind, Except.map, pgDecision_empty]
          | some f =>
            have hfeta : (⟨f.name, f.ty, f.key⟩ : TableField) = f := rfl
            have hkey := pgDecision_pkctx f.name f.ty f.key sql
            rw [hfeta] at hkey
            simp only [hret, hfind, List.length_nil, Nat.lt_irrefl, gt_iff_lt,
              if_false, if_true, if_pos rfl, withValue, Except.map]
            rw [hkey]
            by_cases hcond : f.name ≠ "" ∧ strContains sql "INSERT INTO" = true
            · rw [if_pos hcond]
              constructor
              · intro h
                have hf : f = pk := by
                  have := Except.ok.inj h
                  exact PgDecision.autoReturning.inj this
                subst hf
                exact ⟨trivial, trivial, ⟨fs, rfl, hfind⟩, hcond.1, hcond.2⟩
              · rintro ⟨-, -, ⟨fs', hfs', hfind'⟩, -, -⟩
                cases hfs'
                rw [hfind] at hfind'
                cases hfind'
                rfl
            · rw [if_neg hcond]
              constructor
              · intro h
                exact absurd (Except.ok.inj h) (by simp)
              · rintro ⟨-, -, ⟨fs', hfs', hfind'⟩, hname, hsql⟩
                cases hfs'
                rw [hfind] at hfind'
                cases hfind'
                exact absurd ⟨hname, hsql⟩ hcond
      · have hpos : 0 < option.returning.length :=
          Nat.pos_of_ne_zero (fun h0 => hret (List.eq_nil_of_length_eq_zero h0))
        simp [hpos, hret, Except.map, pgDecision_inject option.returning sql hret]
  · intro env ctx link? l sql hd hr
    rw [pgDoExec_resolved env ctx link? l sql hr, pgDoExecResolved_core env ctx l sql hd]

/-- Witness for C3 at concrete inputs: an integer-keyed table fires the
fallback, and a core-path decision leaves the exec path unchanged. -/
theorem gf_c3_auto_fallback_iff_witness :
    (pgInsertDecision ⟨.default, []⟩ (some [⟨"id", "int8", "pri"⟩]) insertSqlEx =
        .ok (.autoReturning ⟨"id", "int8", "pri"⟩) ↔
      (([] : List String) = [] ∧ InsertOption.default = .default ∧
       (∃ fs, some [(⟨"id", "int8", "pri"⟩ : TableField)] = some fs ∧
         fs.find? (fun f => f.key = "pri") = some ⟨"id", "int8", "pri"⟩) ∧
       ("id" : String) ≠ "" ∧ strContains insertSqlEx "INSERT INTO" = true)) ∧
    pgDoExec userEnv [] none "DELETE FROM t WHERE id = 1" = .ok
      { path := .core, linkUsed := sampleLink, sqlSent := "DELETE FROM t WHERE id = 1"
        execAsQuery := false, pgResult := none
        nativeResult := some userEnv.coreResult } :=
  ⟨gf_c3_auto_fallback_iff.1 ⟨.default, []⟩ (some [⟨"id", "int8", "pri"⟩]) insertSqlEx
     ⟨"id", "int8", "pri"⟩,
   gf_c3_auto_fallback_iff.2 userEnv [] none sampleLink "DELETE FROM t WHERE id = 1"
     (pgDecision_empty "DELETE FROM t WHERE id = 1") rfl⟩

/-- A sample external world shared by the concrete driver runs. -/
def sampleWorld : World :=
  { pgEnv := userEnv, tableFields := some [⟨"id", "int8", "pri"⟩]
    sqliteNative := ⟨1, 42⟩, mysqlNative := ⟨1, 7⟩, insertSql := insertSqlEx }

/-- C2 counterexample: a bare mutation call that explicitly supplied a
RETURNING field list on a dialect without returning support succeeds with
the native result — it does not fail with a NotSupported error; the request
is silently ignored, as `Model.Returning`'s documentation states. -/
theorem gf_c2_counterexample :
    (Model.Returning ⟨[]⟩ ["id", "name"]).returning = ["id", "name"] ∧
    modelInsert .mysqlLike (Model.Returning ⟨[]⟩ ["id", "name"]) sampleWorld =
      .ok (.native ⟨1, 7⟩) := by
  decide

/-- C2 amended: the scan-and-return helpers never silently degrade — on a
dialect whose driver result carries no RETURNING records (the
non-supporting dialect, and also the sqlite driver, whose DoInsert and
DoExec disagree on the context key) the helper fails with a NotSupported
error, and any result that is not a `ReturningResult` makes the scan tail
fail with NotSupported; a bare explicit field list on a non-supporting
dialect, however, is silently ignored and the call succeeds with the native
result. -/
theorem gf_c2_explicit_returning_errors :
    (∀ (m : Model) (w : World), ∃ e, Model.doInsertAndScan m .mysqlLike w = .error e ∧
      e.code = .notSupported) ∧
    (∀ (m : Model) (w : World), ∃ e, Model.doInsertAndScan m .sqlite w = .error e ∧
      e.code = .notSupported) ∧
    (∀ (r : SqlResultV) (n : NativeResult), r = .native n →
      scanReturningRecords r =
        .error ⟨.notSupported,
          "InsertAndScan is not supported by current database driver"⟩) ∧
    (∀ (m : Model) (w : World), modelInsert .mysqlLike m w = .ok (.native w.mysqlNative)) := by
  refine ⟨fun m w => ⟨⟨.notSupported,
      "InsertAndScan is not supported by current database driver"⟩, rfl, rfl⟩,
    fun m w => ⟨⟨.notSupported,
      "InsertAndScan is not supported by current database driver"⟩, ?_, rfl⟩,
    fun r n h => by rw [h]; rfl, fun m w => rfl⟩
  rfl

/-- Witness for C2 at concrete inputs. -/
theorem gf_c2_explicit_returning_errors_witness :
    (∃ e, Model.doInsertAndScan ⟨["id"]⟩ .mysqlLike sampleWorld = .error e ∧
      e.code = .notSupported) ∧
    (∃ e, Model.doInsertAndScan ⟨["id"]⟩ .sqlite sampleWorld = .error e ∧
      e.code = .notSupported) ∧
    scanReturningRecords (.native ⟨1, 7⟩) =
      .error ⟨.notSupported,
        "InsertAndScan is not supported by current database driver"⟩ ∧
    modelInsert .mysqlLike ⟨["id"]⟩ sampleWorld = .ok (.native sampleWorld.mysqlNative) :=
  ⟨gf_c2_explicit_returning_errors.1 ⟨["id"]⟩ sampleWorld,
   gf_c2_explicit_returning_errors.2.1 ⟨["id"]⟩ sampleWorld,
   gf_c2_explicit_returning_errors.2.2.1 (.native ⟨1, 7⟩) ⟨1, 7⟩ rfl,
   gf_c2_explicit_returning_errors.2.2.2 ⟨["id"]⟩ sampleWorld⟩

/-- C9: repeated materializer invocations over the same destination sequence
reuse the existing elements — after binding a "Many" attribute and then a
"One" attribute with matching correlation keys, the sequence has the same
length, each element keeps its scanned key, the "Many" attribute still holds
exactly the rows of the first binding, and the "One" attribute holds the
first matching row of the second binding; neither pass erases the other's
work. -/
theorem gf_c9_materializer_reuse :
    ∀ (related1 related2 : List Record) (col1 col2 : String) (dest : List DestElem)
      (i : Nat) (e0 : DestElem),
      dest[i]? = some e0 →
      (bindOne related2 col2 (bindMany related1 col1 dest)).length = dest.length ∧
      (bindOne related2 col2 (bindMany related1 col1 dest))[i]? = some
        { key := e0.key
          one := (relatedMatches related2 col2 e0).head?
          many := some (relatedMatches related1 col1 e0) } := by
  intro related1 related2 col1 col2 dest i e0 h
  constructor
  · simp [bindOne, bindMany]
  · simp [bindOne, bindMany, List.getElem?_map, h]
    rfl

/-- Witness for C9 at concrete inputs. -/
theorem gf_c9_materializer_reuse_witness :
    (bindOne [[("id", Val.intVal 1), ("nm", Val.strVal "john")]] "id"
        (bindMany [[("pid", Val.intVal 1), ("n", Val.strVal "a")],
                   [("pid", Val.intVal 1), ("n", Val.strVal "b")]] "pid"
          [⟨1, none, none⟩, ⟨2, none, none⟩])).length = 2 ∧
    (bindOne [[("id", Val.intVal 1), ("nm", Val.strVal "john")]] "id"
        (bindMany [[("pid", Val.intVal 1), ("n", Val.strVal "a")],
                   [("pid", Val.intVal 1), ("n", Val.strVal "b")]] "pid"
          [⟨1, none, none⟩, ⟨2, none, none⟩]))[0]? = some
      { key := 1
        one := (relatedMatches [[("id", Val.intVal 1), ("nm", Val.strVal "john")]] "id"
          ⟨1, none, none⟩).head?
        many := some (relatedMatches
          [[("pid", Val.intVal 1), ("n", Val.strVal "a")],
           [("pid", Val.intVal 1), ("n", Val.strVal "b")]] "pid" ⟨1, none, none⟩) } :=
  gf_c9_materializer_reuse
    [[("pid", Val.intVal 1), ("n", Val.strVal "a")],
     [("pid", Val.intVal 1), ("n", Val.strVal "b")]]
    [[("id", Val.intVal 1), ("nm", Val.strVal "john")]]
    "pid" "id" [⟨1, none, none⟩, ⟨2, none, none⟩] 0 ⟨1, none, none⟩ rfl

/-- Helper: string concatenation concatenates the character lists. -/
theorem stringAppendData (a b : String) : (a ++ b).data = a.data ++ b.data := rfl

/-- C8 counterexample: the pgsql builder does not quote an `OLD.`-prefixed
field whole, and the sqlite builder trims a field before quoting it, so the
clause differs from the claim's description on both dialects. -/
theorem gf_c8_counterexample :
    buildReturningClausePg ["OLD.id"] ≠ claimClausePg ["OLD.id"] ∧
    buildReturningClausePg ["OLD.id"] = "RETURNING OLD.\"id\"" ∧
    claimClausePg ["OLD.id"] = "RETURNING \"OLD.id\"" ∧
    buildReturningClauseSqlite [" id "] ≠ claimClauseSqlite [" id "] ∧
    buildReturningClauseSqlite [" id "] = "RETURNING `id`" ∧
    claimClauseSqlite [" id "] = "RETURNING ` id `" := by
  decide

/-- C8 amended: both builders produce the empty string for an empty field
list; the sqlite clause is exactly the claim's clause applied to the
whitespace-trimmed fields; the pgsql clause is the claim's clause applied to
the trimmed fields whenever no trimmed field carries a case-insensitive
`OLD.`/`NEW.` prefix; and a trimmed `OLD.x`/`NEW.x` field maps to the
unquoted `OLD.*`/`NEW.*` when `x` is the wildcard and otherwise to the
prefix with only `x` double-quoted. -/
theorem gf_c8_returning_clause :
    (buildReturningClausePg [] = "" ∧ buildReturningClauseSqlite [] = "") ∧
    (∀ fields : List String,
      buildReturningClauseSqlite fields = claimClauseSqlite (fields.map strTrim)) ∧
    (∀ fields : List String,
      (∀ f ∈ fields, pgIsOldNewPrefixed (strTrim f) = false) →
      buildReturningClausePg fields = claimClausePg (fields.map strTrim)) ∧
    (∀ x : String, strTrim ("OLD." ++ x) = "OLD." ++ x →
      pgQuoteReturningField ("OLD." ++ x) =
        if x = "*" then "OLD.*" else "OLD.\"" ++ x ++ "\"") ∧
    (∀ x : String, strTrim ("NEW." ++ x) = "NEW." ++ x →
      pgQuoteReturningField ("NEW." ++ x) =
        if x = "*" then "NEW.*" else "NEW.\"" ++ x ++ "\"") := by
  have holdnew : ∀ (p : String) (x : String),
      (p = "OLD." ∨ p = "NEW.") → strTrim (p ++ x) = p ++ x →
      pgQuoteReturningField (p ++ x) =
        if x = "*" then (p ++ "*")
        else p.dropRight 1 ++ ".\"" ++ x ++ "\"" := by
    intro p x hp htrim
    have hne : (p ++ x) ≠ "*" := by
      intro heq
      have hdata := congrArg String.data heq
      rcases hp with h | h <;> subst h <;>
        simp [stringAppendData] at hdata
    rcases hp with h | h <;> subst h
    · have hpre : strHasPrefix (strToUpper ("OLD." ++ x)) "OLD." = true := rfl
      simp only [pgQuoteReturningField, htrim, if_neg hne, hpre, if_true]
      have hsplit : splitFirstDot ("OLD." ++ x).data = (['O', 'L', 'D'], some x.data) := rfl
      rw [hsplit]
      simp only [stringMkData]
      rfl
    · have hpre1 : strHasPrefix (strToUpper ("NEW." ++ x)) "OLD." = false := rfl
      have hpre2 : strHasPrefix (strToUpper ("NEW." ++ x)) "NEW." = true := rfl
      simp only [pgQuoteReturningField, htrim, if_neg hne, hpre1, hpre2,
        Bool.false_eq_true, if_false, if_true]
      have hsplit : splitFirstDot ("NEW." ++ x).data = (['N', 'E', 'W'], some x.data) := rfl
      rw [hsplit]
      simp only [stringMkData]
      rfl
  refine ⟨⟨rfl, rfl⟩, fun fields => ?_, fun fields hno => ?_, ?_, ?_⟩
  · by_cases h : fields = []
    · subst h; rfl
    · have hlen : fields.length ≠ 0 := fun h0 => h (List.eq_nil_of_length_eq_zero h0)
      have hmapne : fields.map strTrim ≠ [] := by simp [h]
      unfold buildReturningClauseSqlite claimClauseSqlite
      rw [if_neg hlen, if_neg hmapne, List.map_map]
      rfl
  · by_cases h : fields = []
    · subst h; rfl
    · have hlen : fields.length ≠ 0 := fun h0 => h (List.eq_nil_of_length_eq_zero h0)
      have hmapne : fields.map strTrim ≠ [] := by simp [h]
      unfold buildReturningClausePg claimClausePg
      rw [if_neg hlen, if_neg hmapne, List.map_map]
      have hmap : ∀ f ∈ fields,
          pgQuoteReturningField f = (claimQuotePg ∘ strTrim) f := by
        intro f hf
        have hb := hno f hf
        have hold : strHasPrefix (strToUpper (strTrim f)) "OLD." = false := by
          rcases Bool.or_eq_false_iff.mp (by simpa [pgIsOldNewPrefixed] using hb) with ⟨h1, _⟩
          exact h1
        have hnew : strHasPrefix (strToUpper (strTrim f)) "NEW." = false := by
          rcases Bool.or_eq_false_iff.mp (by simpa [pgIsOldNewPrefixed] using hb) with ⟨_, h2⟩
          exact h2
        simp only [pgQuoteReturningField, Function.comp, claimQuotePg, hold, hnew,
          Bool.false_eq_true, if_false]
      rw [List.map_congr_left hmap]
  · intro x htrim
    have := holdnew "OLD." x (Or.inl rfl) htrim
    simpa using this
  · intro x htrim
    have := holdnew "NEW." x (Or.inr rfl) htrim
    simpa using this

/-- Witness for C8 at concrete inputs. -/
theorem gf_c8_returning_clause_witness :
    buildReturningClauseSqlite ["id", " name "] =
      claimClauseSqlite (["id", " name "].map strTrim) ∧
    buildReturningClausePg ["id", "*"] = claimClausePg (["id", "*"].map strTrim) ∧
    pgQuoteReturningField ("OLD." ++ "*") = "OLD.*" ∧
    pgQuoteReturningField ("NEW." ++ "id") = "NEW.\"id\"" :=
  ⟨gf_c8_returning_clause.2.1 ["id", " name "],
   gf_c8_returning_clause.2.2.1 ["id", "*"] (by decide),
   by rw [gf_c8_returning_clause.2.2.2.1 "*" (by decide)]; decide,
   by rw [gf_c8_returning_clause.2.2.2.2 "id" (by decide)]; decide⟩

end Gf
